import Mathlib

/-!
Verification of `src/python2native/C/call_mymath_linux.cpp` (and the C-ABI
surface declared in `src/python2native/C/mymath_c_api.h`).

The program is a straight-line C++ `main` that:
  0. dlopen("libpython3.12.so", RTLD_NOW | RTLD_GLOBAL), exits 1 with a
     diagnostic on stderr if that fails;
  1. dlopen("./mymath.cpython-312-x86_64-linux-gnu.so", RTLD_NOW), exits 1
     with a diagnostic on stderr if that fails;
  2. clears the dlerror indicator, then resolves "C_add_int" and
     "C_add_double" with the dlerror check-after-clear protocol, on a
     resolution failure prints a diagnostic, dlcloses the module handle and
     exits 1;
  3. invokes the two resolved functions with literal arguments and prints
     the results on stdout;
  4. dlcloses the module handle and returns 0.

We embed the program as a function from an environment (which loads and
resolutions succeed, what the platform diagnostic strings are, which
addresses dlsym returns, whether dlclose succeeds, and the dlerror cell
content at program start) to an exit code together with a trace of
observable events.  The dlfcn primitives are modelled with their POSIX
semantics: dlerror reads AND clears the process-wide error cell; dlopen
and dlsym set the cell on failure and leave it unchanged on success;
dlsym returns the null address on failure but may also legitimately
return it on success, which is why the program consults the error cell
and not the returned address.

The module implementation itself (the bodies of C_add_int, C_add_double,
C_dot) is not part of the repository sources; those three functions are
modelled from the spec's C-ABI contract table.  IEEE doubles are modelled
as rationals; every double value the program manipulates (1.5, 2.5, 4.0)
is exactly representable, so double arithmetic on them is exact.
-/

/-- Observable events of one execution, in program order.  `evLookup`
additionally records the content of the dlerror cell at the moment of the
lookup (a ghost field used to state the check-after-clear invariants). -/
inductive Event where
  | evOpen (path : String) (bindNow globalVis ok : Bool)
  | evDlerror (result : Option String)
  | evLookup (handle : Nat) (sym : String) (cellBefore : Option String)
  | evInvokeInt (sym : String) (a b r : Int)
  | evInvokeRat (sym : String) (a b r : ℚ)
  | evOutInt (label : String) (value : Int)
  | evOutRat (label : String) (value : ℚ)
  | evErrLine (line : String)
  | evClose (handle : Nat) (ok : Bool)
  deriving DecidableEq, Repr

/-- The environment of one execution: everything the dynamic loader and
the platform decide.  `symErr s = none` means resolution of symbol `s`
succeeds; `symAddr s` is the address dlsym returns on success (possibly
the null address 0, which is legitimate).  `stale` is the dlerror cell
content at program start. -/
structure Env where
  stale : Option String
  pyOk : Bool
  pyErrMsg : String
  modOk : Bool
  modErrMsg : String
  symErr : String → Option String
  symAddr : String → Int
  closeOk : Bool

/-- Dynamic-loader state threaded through the execution: the dlerror
cell plus the event trace so far. -/
structure DLState where
  cell : Option String
  events : List Event
  deriving Repr

/-- Model of dlopen: on success returns the (non-null) handle `h` and
leaves the error cell unchanged; on failure returns no handle and sets
the error cell to the platform diagnostic. -/
def dlopen (ok : Bool) (errMsg : String) (h : Nat) (path : String)
    (bindNow globalVis : Bool) (s : DLState) : Option Nat × DLState :=
  if ok then
    (some h, ⟨s.cell, s.events ++ [Event.evOpen path bindNow globalVis true]⟩)
  else
    (none, ⟨some errMsg, s.events ++ [Event.evOpen path bindNow globalVis false]⟩)

/-- Model of dlerror: returns the current error cell content and clears
the cell. -/
def dlerror (s : DLState) : Option String × DLState :=
  (s.cell, ⟨none, s.events ++ [Event.evDlerror s.cell]⟩)

/-- Model of dlsym: on failure returns the null address and sets the
error cell; on success returns the environment-chosen address (which may
itself be null) and leaves the error cell unchanged. -/
def dlsym (env : Env) (h : Nat) (sym : String) (s : DLState) : Int × DLState :=
  match env.symErr sym with
  | some e => (0, ⟨some e, s.events ++ [Event.evLookup h sym s.cell]⟩)
  | none => (env.symAddr sym, ⟨s.cell, s.events ++ [Event.evLookup h sym s.cell]⟩)

/-- Model of dlclose: returns 0 on success and nonzero on failure, in
which case the error cell is set. -/
def dlclose (env : Env) (h : Nat) (s : DLState) : Int × DLState :=
  if env.closeOk then
    (0, ⟨s.cell, s.events ++ [Event.evClose h true]⟩)
  else
    (1, ⟨some "dlclose failed", s.events ++ [Event.evClose h false]⟩)

/-- Helper for a line written to the standard error stream. -/
def emitErr (s : DLState) (line : String) : DLState :=
  ⟨s.cell, s.events ++ [Event.evErrLine line]⟩

/-- Modelled from the spec: the module implementation of `C_add_int` is
not under src/ (only its declaration in mymath_c_api.h is); per the
C-ABI contract table its signature is `(int, int) -> int` and it returns
the sum. -/
def C_add_int (a b : Int) : Int := a + b

/-- Modelled from the spec: the module implementation of `C_add_double`
is not under src/; per the C-ABI contract table its signature is
`(double, double) -> double` and it returns the sum. -/
def C_add_double (a b : ℚ) : ℚ := a + b

/-- Modelled from the spec: the module implementation of `C_dot` is not
under src/; per the C-ABI contract table it returns the dot product of
the first `length` elements of the two buffers. -/
def C_dot (x y : List ℚ) (length : Nat) : ℚ :=
  (List.zipWith (fun a b => a * b) (x.take length) (y.take length)).sum

/-- Result of one execution: process exit code and event trace. -/
structure ProgResult where
  exitCode : Int
  events : List Event
  deriving Repr

/-- Shallow embedding of `main` from call_mymath_linux.cpp, line by
line. -/
def mainProg (env : Env) : ProgResult :=
  let s0 : DLState := ⟨env.stale, []⟩
  -- 0. void *hpy = dlopen("libpython3.12.so", RTLD_NOW | RTLD_GLOBAL);
  let (hpy, s1) := dlopen env.pyOk env.pyErrMsg 1 "libpython3.12.so" true true s0
  match hpy with
  | none =>
    -- std::cerr << "dlopen libpython error: " << dlerror() << std::endl; return 1;
    let (r, s2) := dlerror s1
    let s3 := emitErr s2 ("dlopen libpython error: " ++ r.getD "")
    ⟨1, s3.events⟩
  | some _ =>
    -- 1. void *handle = dlopen("./mymath.cpython-312-x86_64-linux-gnu.so", RTLD_NOW);
    let (hmod, s2) := dlopen env.modOk env.modErrMsg 2
      "./mymath.cpython-312-x86_64-linux-gnu.so" true false s1
    match hmod with
    | none =>
      -- std::cerr << "dlopen error: " << dlerror() << std::endl; return 1;
      let (r, s3) := dlerror s2
      let s4 := emitErr s3 ("dlopen error: " ++ r.getD "")
      ⟨1, s4.events⟩
    | some handle =>
      -- dlerror();  (clear stale error, result discarded)
      let (_, s3) := dlerror s2
      -- 2. C_add_int_func = (C_add_int_t)dlsym(handle, "C_add_int");
      let (_addrInt, s4) := dlsym env handle "C_add_int" s3
      -- const char *err = dlerror();
      let (err1, s5) := dlerror s4
      match err1 with
      | some e =>
        -- std::cerr << "dlsym(C_add_int) error: " << err << ...; dlclose(handle); return 1;
        let s6 := emitErr s5 ("dlsym(C_add_int) error: " ++ e)
        let (_, s7) := dlclose env handle s6
        ⟨1, s7.events⟩
      | none =>
        -- C_add_double_func = (C_add_double_t)dlsym(handle, "C_add_double");
        let (_addrDouble, s6) := dlsym env handle "C_add_double" s5
        -- err = dlerror();
        let (err2, s7) := dlerror s6
        match err2 with
        | some e =>
          -- std::cerr << "dlsym(C_add_double) error: " << err << ...; dlclose(handle); return 1;
          let s8 := emitErr s7 ("dlsym(C_add_double) error: " ++ e)
          let (_, s9) := dlclose env handle s8
          ⟨1, s9.events⟩
        | none =>
          -- 3. std::cout << "C_add_int(2, 3) = " << C_add_int_func(2, 3) << std::endl;
          let r1 := C_add_int 2 3
          let s8 : DLState :=
            ⟨s7.cell, s7.events ++ [Event.evInvokeInt "C_add_int" 2 3 r1,
              Event.evOutInt "C_add_int(2, 3) = " r1]⟩
          -- std::cout << "C_add_double(1.5, 2.5) = " << C_add_double_func(1.5, 2.5) << ...;
          let r2 := C_add_double (3 / 2) (5 / 2)
          let s9 : DLState :=
            ⟨s8.cell, s8.events ++ [Event.evInvokeRat "C_add_double" (3 / 2) (5 / 2) r2,
              Event.evOutRat "C_add_double(1.5, 2.5) = " r2]⟩
          -- 4. dlclose(handle); return 0;
          let (_, s10) := dlclose env handle s9
          ⟨0, s10.events⟩

/-- Predicate: the event is a symbol lookup (a dlsym call). -/
def Event.isLookup : Event → Bool
  | Event.evLookup _ _ _ => true
  | _ => false

/-- Predicate: the event is a release of a handle (a dlclose call). -/
def Event.isClose : Event → Bool
  | Event.evClose _ _ => true
  | _ => false

/-- Predicate: the event is a read of the dlerror indicator (which also
clears it). -/
def Event.isRead : Event → Bool
  | Event.evDlerror _ => true
  | _ => false

/-- Predicate: the event is an invocation of a resolved function. -/
def Event.isInvoke : Event → Bool
  | Event.evInvokeInt _ _ _ _ => true
  | Event.evInvokeRat _ _ _ _ => true
  | _ => false

/-- Predicate: the event is a line written to standard error. -/
def Event.isErrLine : Event → Bool
  | Event.evErrLine _ => true
  | _ => false

/-- Predicate: the event is a result line written to standard output. -/
def Event.isOutLine : Event → Bool
  | Event.evOutInt _ _ => true
  | Event.evOutRat _ _ => true
  | _ => false

/-- The path a library-open event opened, if the event is one. -/
def Event.openPath : Event → Option String
  | Event.evOpen p _ _ _ => some p
  | _ => none

/-- The symbol a lookup event resolved, if the event is one. -/
def Event.lookupSym : Event → Option String
  | Event.evLookup _ s _ => some s
  | _ => none

/-- Trace shape of the execution in which the prerequisite runtime
library fails to load. -/
theorem mainProg_pyFail (env : Env) (h : env.pyOk = false) :
    mainProg env = ⟨1,
      [Event.evOpen "libpython3.12.so" true true false,
       Event.evDlerror (some env.pyErrMsg),
       Event.evErrLine ("dlopen libpython error: " ++ env.pyErrMsg)]⟩ := by
  simp [mainProg, dlopen, dlerror, emitErr, h]

/-- Trace shape of the execution in which the prerequisite loads but the
target module fails to load. -/
theorem mainProg_modFail (env : Env) (h1 : env.pyOk = true) (h2 : env.modOk = false) :
    mainProg env = ⟨1,
      [Event.evOpen "libpython3.12.so" true true true,
       Event.evOpen "./mymath.cpython-312-x86_64-linux-gnu.so" true false false,
       Event.evDlerror (some env.modErrMsg),
       Event.evErrLine ("dlopen error: " ++ env.modErrMsg)]⟩ := by
  simp [mainProg, dlopen, dlerror, emitErr, h1, h2]

/-- Trace shape of the execution in which both loads succeed but
resolution of C_add_int fails. -/
theorem mainProg_sym1Fail (env : Env) (e : String) (h1 : env.pyOk = true)
    (h2 : env.modOk = true) (h3 : env.symErr "C_add_int" = some e) :
    mainProg env = ⟨1,
      [Event.evOpen "libpython3.12.so" true true true,
       Event.evOpen "./mymath.cpython-312-x86_64-linux-gnu.so" true false true,
       Event.evDlerror env.stale,
       Event.evLookup 2 "C_add_int" none,
       Event.evDlerror (some e),
       Event.evErrLine ("dlsym(C_add_int) error: " ++ e),
       Event.evClose 2 env.closeOk]⟩ := by
  cases hc : env.closeOk <;>
    simp [mainProg, dlopen, dlerror, dlsym, dlclose, emitErr, h1, h2, h3, hc]

/-- Trace shape of the execution in which both loads succeed, C_add_int
resolves, but resolution of C_add_double fails. -/
theorem mainProg_sym2Fail (env : Env) (e : String) (h1 : env.pyOk = true)
    (h2 : env.modOk = true) (h3 : env.symErr "C_add_int" = none)
    (h4 : env.symErr "C_add_double" = some e) :
    mainProg env = ⟨1,
      [Event.evOpen "libpython3.12.so" true true true,
       Event.evOpen "./mymath.cpython-312-x86_64-linux-gnu.so" true false true,
       Event.evDlerror env.stale,
       Event.evLookup 2 "C_add_int" none,
       Event.evDlerror none,
       Event.evLookup 2 "C_add_double" none,
       Event.evDlerror (some e),
       Event.evErrLine ("dlsym(C_add_double) error: " ++ e),
       Event.evClose 2 env.closeOk]⟩ := by
  cases hc : env.closeOk <;>
    simp [mainProg, dlopen, dlerror, dlsym, dlclose, emitErr, h1, h2, h3, h4, hc]

/-- Trace shape of the fully successful execution. -/
theorem mainProg_success (env : Env) (h1 : env.pyOk = true)
    (h2 : env.modOk = true) (h3 : env.symErr "C_add_int" = none)
    (h4 : env.symErr "C_add_double" = none) :
    mainProg env = ⟨0,
      [Event.evOpen "libpython3.12.so" true true true,
       Event.evOpen "./mymath.cpython-312-x86_64-linux-gnu.so" true false true,
       Event.evDlerror env.stale,
       Event.evLookup 2 "C_add_int" none,
       Event.evDlerror none,
       Event.evLookup 2 "C_add_double" none,
       Event.evDlerror none,
       Event.evInvokeInt "C_add_int" 2 3 5,
       Event.evOutInt "C_add_int(2, 3) = " 5,
       Event.evInvokeRat "C_add_double" (3 / 2) (5 / 2) 4,
       Event.evOutRat "C_add_double(1.5, 2.5) = " 4,
       Event.evClose 2 env.closeOk]⟩ := by
  cases hc : env.closeOk <;>
    simp [mainProg, dlopen, dlerror, dlsym, dlclose, emitErr, C_add_int, C_add_double,
      h1, h2, h3, h4, hc] <;> norm_num

/-- The platform diagnostic string of the first failing load or
resolution step, if any step fails. -/
def firstFailMsg (env : Env) : Option String :=
  if env.pyOk then
    if env.modOk then
      match env.symErr "C_add_int" with
      | some e => some e
      | none => env.symErr "C_add_double"
    else some env.modErrMsg
  else some env.pyErrMsg

/-- Concrete all-success environment. -/
def envA : Env := ⟨none, true, "", true, "", fun _ => none, fun _ => 7, true⟩

/-- Concrete environment in which the prerequisite runtime library fails
to load. -/
def envPyFail : Env :=
  ⟨none, false, "no such file", true, "", fun _ => none, fun _ => 0, true⟩

/-- Claim C2: on the success path the program opens the prerequisite
runtime library, opens the module, resolves C_add_int and C_add_double,
invokes them with the literal arguments so that C_add_int(2,3) = 5 and
C_add_double(1.5,2.5) = 4.0, releases the module handle, and exits with
code 0. -/
theorem success_path_end_to_end (env : Env) (h1 : env.pyOk = true)
    (h2 : env.modOk = true) (h3 : env.symErr "C_add_int" = none)
    (h4 : env.symErr "C_add_double" = none) :
    mainProg env = ⟨0,
      [Event.evOpen "libpython3.12.so" true true true,
       Event.evOpen "./mymath.cpython-312-x86_64-linux-gnu.so" true false true,
       Event.evDlerror env.stale,
       Event.evLookup 2 "C_add_int" none,
       Event.evDlerror none,
       Event.evLookup 2 "C_add_double" none,
       Event.evDlerror none,
       Event.evInvokeInt "C_add_int" 2 3 5,
       Event.evOutInt "C_add_int(2, 3) = " 5,
       Event.evInvokeRat "C_add_double" (3 / 2) (5 / 2) 4,
       Event.evOutRat "C_add_double(1.5, 2.5) = " 4,
       Event.evClose 2 env.closeOk]⟩ :=
  mainProg_success env h1 h2 h3 h4

/-- Witness for C2 at a concrete all-success environment. -/
theorem success_path_end_to_end_wit :
    mainProg envA = ⟨0,
      [Event.evOpen "libpython3.12.so" true true true,
       Event.evOpen "./mymath.cpython-312-x86_64-linux-gnu.so" true false true,
       Event.evDlerror none,
       Event.evLookup 2 "C_add_int" none,
       Event.evDlerror none,
       Event.evLookup 2 "C_add_double" none,
       Event.evDlerror none,
       Event.evInvokeInt "C_add_int" 2 3 5,
       Event.evOutInt "C_add_int(2, 3) = " 5,
       Event.evInvokeRat "C_add_double" (3 / 2) (5 / 2) 4,
       Event.evOutRat "C_add_double(1.5, 2.5) = " 4,
       Event.evClose 2 true]⟩ :=
  success_path_end_to_end envA rfl rfl rfl rfl

/-- Claim C3: the exit code is 0 exactly when every load and resolution
succeeded; otherwise it is 1 and a diagnostic line containing the
platform loader's error string (here: ending in it) is written to the
error stream before exit (every traced event precedes the return). -/
theorem exit_code_spec (env : Env) :
    ((mainProg env).exitCode = 0 ↔
      env.pyOk = true ∧ env.modOk = true ∧ env.symErr "C_add_int" = none ∧
        env.symErr "C_add_double" = none) ∧
    ((mainProg env).exitCode = 0 ∨ (mainProg env).exitCode = 1) ∧
    (∀ m, firstFailMsg env = some m →
      (mainProg env).exitCode = 1 ∧
      ∃ pre, Event.evErrLine (pre ++ m) ∈ (mainProg env).events) := by
  rcases hp : env.pyOk with _ | _
  · rw [mainProg_pyFail env hp]
    refine ⟨by simp [hp], Or.inr rfl, ?_⟩
    intro m hm
    simp [firstFailMsg, hp] at hm
    exact ⟨rfl, "dlopen libpython error: ", by simp [hm]⟩
  · rcases hm : env.modOk with _ | _
    · rw [mainProg_modFail env hp hm]
      refine ⟨by simp [hm], Or.inr rfl, ?_⟩
      intro m hmm
      simp [firstFailMsg, hp, hm] at hmm
      exact ⟨rfl, "dlopen error: ", by simp [hmm]⟩
    · rcases hi : env.symErr "C_add_int" with _ | e
      · rcases hd : env.symErr "C_add_double" with _ | e
        · rw [mainProg_success env hp hm hi hd]
          refine ⟨by simp [hp, hm, hi, hd], Or.inl rfl, ?_⟩
          intro m hmm
          simp [firstFailMsg, hp, hm, hi, hd] at hmm
        · rw [mainProg_sym2Fail env e hp hm hi hd]
          refine ⟨by simp [hd], Or.inr rfl, ?_⟩
          intro m hmm
          simp [firstFailMsg, hp, hm, hi, hd] at hmm
          exact ⟨rfl, "dlsym(C_add_double) error: ", by simp [hmm]⟩
      · rw [mainProg_sym1Fail env e hp hm hi]
        refine ⟨by simp [hi], Or.inr rfl, ?_⟩
        intro m hmm
        simp [firstFailMsg, hp, hm, hi] at hmm
        exact ⟨rfl, "dlsym(C_add_int) error: ", by simp [hmm]⟩

/-- Witness for C3 at a concrete environment whose prerequisite load
fails with diagnostic "no such file". -/
theorem exit_code_spec_wit :
    (mainProg envPyFail).exitCode = 1 ∧
    ∃ pre, Event.evErrLine (pre ++ "no such file") ∈ (mainProg envPyFail).events :=
  (exit_code_spec envPyFail).2.2 "no such file" rfl

/-- Claim C9: the result of releasing the module handle is ignored on
every path: the exit code does not depend on the dlclose result, the
success path exits 0 even when dlclose fails, and resolution-failure
paths exit 1 whatever the dlclose result. -/
theorem dlclose_result_ignored (stale : Option String) (pyOk : Bool)
    (pyMsg : String) (modOk : Bool) (modMsg : String)
    (symErr : String → Option String) (symAddr : String → Int) (b1 b2 : Bool) :
    (mainProg ⟨stale, pyOk, pyMsg, modOk, modMsg, symErr, symAddr, b1⟩).exitCode =
      (mainProg ⟨stale, pyOk, pyMsg, modOk, modMsg, symErr, symAddr, b2⟩).exitCode ∧
    (pyOk = true ∧ modOk = true ∧ symErr "C_add_int" = none ∧
        symErr "C_add_double" = none →
      (mainProg ⟨stale, pyOk, pyMsg, modOk, modMsg, symErr, symAddr, b1⟩).exitCode = 0) ∧
    (pyOk = true ∧ modOk = true ∧
        ¬(symErr "C_add_int" = none ∧ symErr "C_add_double" = none) →
      (mainProg ⟨stale, pyOk, pyMsg, modOk, modMsg, symErr, symAddr, b1⟩).exitCode = 1) := by
  rcases hp : pyOk with _ | _
  · rw [mainProg_pyFail _ rfl, mainProg_pyFail _ rfl]
    exact ⟨rfl, fun h => by simp at h, fun h => rfl⟩
  · rcases hm : modOk with _ | _
    · rw [mainProg_modFail _ rfl rfl, mainProg_modFail _ rfl rfl]
      exact ⟨rfl, fun h => by simp at h, fun h => rfl⟩
    · rcases hi : symErr "C_add_int" with _ | e
      · rcases hd : symErr "C_add_double" with _ | e
        · rw [mainProg_success _ rfl rfl hi hd, mainProg_success _ rfl rfl hi hd]
          exact ⟨rfl, fun h => rfl, fun h => by simp [hi, hd] at h⟩
        · rw [mainProg_sym2Fail _ e rfl rfl hi hd, mainProg_sym2Fail _ e rfl rfl hi hd]
          exact ⟨rfl, fun h => by simp [hd] at h, fun h => rfl⟩
      · rw [mainProg_sym1Fail _ e rfl rfl hi, mainProg_sym1Fail _ e rfl rfl hi]
        exact ⟨rfl, fun h => by simp [hi] at h, fun h => rfl⟩

/-- Witness for C9: the success path exits 0 even when the release
reports failure. -/
theorem dlclose_result_ignored_wit :
    (mainProg ⟨none, true, "", true, "", fun _ => none, fun _ => 0, false⟩).exitCode = 0 :=
  (dlclose_result_ignored none true "" true "" (fun _ => none) (fun _ => 0)
      false true).2.1 ⟨rfl, rfl, rfl, rfl⟩

/-- Claim C10: stream separation.  Diagnostics go only to the standard
error stream (`evErrLine` events) and invocation results only to the
standard output stream (`evOutInt`/`evOutRat` events); on every failure
path exactly one diagnostic line is written to standard error and
nothing to standard output, and on the success path exactly two result
lines are written to standard output and nothing to standard error. -/
theorem stream_separation (env : Env) :
    ((env.pyOk = true ∧ env.modOk = true ∧ env.symErr "C_add_int" = none ∧
        env.symErr "C_add_double" = none) →
      ((mainProg env).events.filter Event.isErrLine).length = 0 ∧
      ((mainProg env).events.filter Event.isOutLine).length = 2) ∧
    (¬(env.pyOk = true ∧ env.modOk = true ∧ env.symErr "C_add_int" = none ∧
        env.symErr "C_add_double" = none) →
      ((mainProg env).events.filter Event.isErrLine).length = 1 ∧
      ((mainProg env).events.filter Event.isOutLine).length = 0) := by
  rcases hp : env.pyOk with _ | _
  · rw [mainProg_pyFail env hp]
    exact ⟨fun h => by simp [hp] at h,
      fun _ => by simp [Event.isErrLine, Event.isOutLine]⟩
  · rcases hm : env.modOk with _ | _
    · rw [mainProg_modFail env hp hm]
      exact ⟨fun h => by simp [hm] at h,
        fun _ => by simp [Event.isErrLine, Event.isOutLine]⟩
    · rcases hi : env.symErr "C_add_int" with _ | e
      · rcases hd : env.symErr "C_add_double" with _ | e
        · rw [mainProg_success env hp hm hi hd]
          exact ⟨fun _ => by simp [Event.isErrLine, Event.isOutLine],
            fun h => by simp at h⟩
        · rw [mainProg_sym2Fail env e hp hm hi hd]
          exact ⟨fun h => by simp [hd] at h,
            fun _ => by simp [Event.isErrLine, Event.isOutLine]⟩
      · rw [mainProg_sym1Fail env e hp hm hi]
        exact ⟨fun h => by simp [hi] at h,
          fun _ => by simp [Event.isErrLine, Event.isOutLine]⟩

/-- Witness for C10 at the concrete all-success environment. -/
theorem stream_separation_wit :
    ((mainProg envA).events.filter Event.isErrLine).length = 0 ∧
    ((mainProg envA).events.filter Event.isOutLine).length = 2 :=
  (stream_separation envA).1 ⟨rfl, rfl, rfl, rfl⟩

/-- Scan of a trace checking that every symbol lookup happens with a
clear error cell and is immediately followed by a read of the error
indicator whose result is exactly the loader's outcome for that symbol
(`f sym`), so a present error is what the program sees — independently
of the address the lookup returned. -/
def lookupsChecked (f : String → Option String) : List Event → Bool
  | [] => true
  | Event.evLookup _ sym cb :: rest =>
      (cb == none) &&
      (match rest with
       | Event.evDlerror r :: _ => r == f sym
       | _ => false) &&
      lookupsChecked f rest
  | _ :: rest => lookupsChecked f rest

/-- Concrete environment in which resolution of C_add_int fails (with a
non-null address available and a stale initial error cell). -/
def envSymFail : Env :=
  ⟨some "stale", true, "", true, "",
   fun s => if s = "C_add_int" then some "undefined symbol" else none,
   fun _ => 5, true⟩

/-- Claim C4: every symbol resolution follows the check-after-clear
protocol — the error cell is clear at the lookup, the indicator is read
immediately afterwards and its result is the loader's outcome for that
symbol — and a present error is treated as resolution failure (exit 1)
even though the returned address (env.symAddr, unconstrained here, so in
particular non-null) is never consulted. -/
theorem resolution_check_after_clear (env : Env) :
    lookupsChecked env.symErr (mainProg env).events = true ∧
    (∀ h sym cb, Event.evLookup h sym cb ∈ (mainProg env).events →
      ∀ e, env.symErr sym = some e → (mainProg env).exitCode = 1) := by
  rcases hp : env.pyOk with _ | _
  · rw [mainProg_pyFail env hp]
    exact ⟨by simp [lookupsChecked], by intro h sym cb hmem e he; simp at hmem⟩
  · rcases hm : env.modOk with _ | _
    · rw [mainProg_modFail env hp hm]
      exact ⟨by simp [lookupsChecked], by intro h sym cb hmem e he; simp at hmem⟩
    · rcases hi : env.symErr "C_add_int" with _ | e
      · rcases hd : env.symErr "C_add_double" with _ | e
        · rw [mainProg_success env hp hm hi hd]
          refine ⟨by simp [lookupsChecked, hi, hd], ?_⟩
          intro h sym cb hmem e he
          simp at hmem
          rcases hmem with ⟨_, hsym, _⟩ | ⟨_, hsym, _⟩ <;> rw [hsym] at he
          · rw [hi] at he; cases he
          · rw [hd] at he; cases he
        · rw [mainProg_sym2Fail env e hp hm hi hd]
          exact ⟨by simp [lookupsChecked, hi, hd], fun _ _ _ _ _ _ => rfl⟩
      · rw [mainProg_sym1Fail env e hp hm hi]
        exact ⟨by simp [lookupsChecked, hi], fun _ _ _ _ _ _ => rfl⟩

/-- Witness for C4 at a concrete environment in which C_add_int fails to
resolve while dlsym would have returned the non-null address 5. -/
theorem resolution_check_after_clear_wit :
    lookupsChecked envSymFail.symErr (mainProg envSymFail).events = true ∧
    (mainProg envSymFail).exitCode = 1 :=
  ⟨(resolution_check_after_clear envSymFail).1,
   (resolution_check_after_clear envSymFail).2 2 "C_add_int" none (by decide)
     "undefined symbol" (by decide)⟩

/-- Scan relating each event to its predecessor: a lookup is allowed
only when the preceding event is a read of the error indicator (which
clears it). -/
def lookupAfterRead : Event → List Event → Bool
  | _, [] => true
  | prev, e :: rest => (!e.isLookup || prev.isRead) && lookupAfterRead e rest

/-- A trace in which every symbol lookup is immediately preceded by a
read of the error indicator (and no lookup comes first). -/
def lookupsPrecededByRead : List Event → Bool
  | [] => true
  | e :: rest => !e.isLookup && lookupAfterRead e rest

/-- Claim C8: the dlerror indicator is clear immediately before every
lookup the program performs — every lookup is immediately preceded by an
indicator read (the first by the explicit clearing call, each later one
by the previous lookup's check, which clears the cell it reads), and the
cell content recorded at each lookup is `none`. -/
theorem error_cell_clear_before_lookup (env : Env) :
    lookupsPrecededByRead (mainProg env).events = true ∧
    (∀ h sym cb, Event.evLookup h sym cb ∈ (mainProg env).events → cb = none) := by
  rcases hp : env.pyOk with _ | _
  · rw [mainProg_pyFail env hp]
    exact ⟨by simp [lookupsPrecededByRead, lookupAfterRead, Event.isLookup, Event.isRead],
      by intro h sym cb hmem; simp at hmem⟩
  · rcases hm : env.modOk with _ | _
    · rw [mainProg_modFail env hp hm]
      exact ⟨by simp [lookupsPrecededByRead, lookupAfterRead, Event.isLookup, Event.isRead],
        by intro h sym cb hmem; simp at hmem⟩
    · rcases hi : env.symErr "C_add_int" with _ | e
      · rcases hd : env.symErr "C_add_double" with _ | e
        · rw [mainProg_success env hp hm hi hd]
          refine ⟨by simp [lookupsPrecededByRead, lookupAfterRead, Event.isLookup, Event.isRead], ?_⟩
          intro h sym cb hmem
          simp at hmem
          rcases hmem with ⟨_, _, hcb⟩ | ⟨_, _, hcb⟩ <;> exact hcb
        · rw [mainProg_sym2Fail env e hp hm hi hd]
          refine ⟨by simp [lookupsPrecededByRead, lookupAfterRead, Event.isLookup, Event.isRead], ?_⟩
          intro h sym cb hmem
          simp at hmem
          rcases hmem with ⟨_, _, hcb⟩ | ⟨_, _, hcb⟩ <;> exact hcb
      · rw [mainProg_sym1Fail env e hp hm hi]
        refine ⟨by simp [lookupsPrecededByRead, lookupAfterRead, Event.isLookup, Event.isRead], ?_⟩
        intro h sym cb hmem
        simp at hmem
        exact hmem.2.2

/-- Witness for C8 at the concrete environment with a stale initial
error cell and a failing resolution. -/
theorem error_cell_clear_before_lookup_wit :
    lookupsPrecededByRead (mainProg envSymFail).events = true ∧
    (none : Option String) = none :=
  ⟨(error_cell_clear_before_lookup envSymFail).1,
   (error_cell_clear_before_lookup envSymFail).2 2 "C_add_int" none (by decide)⟩

/-- Scan of a trace checking that no symbol lookup occurs after any
release of a handle. -/
def noLookupAfterClose : List Event → Bool
  | [] => true
  | Event.evClose _ _ :: rest =>
      rest.all (fun e => !e.isLookup) && noLookupAfterClose rest
  | _ :: rest => noLookupAfterClose rest

/-- Claim C5: once the module handle is successfully opened, release is
invoked exactly once on every exit path (success or resolution failure),
never twice; no symbol resolution through the handle occurs after the
release; and on a resolution failure the sequence aborts before any
resolved function is invoked. -/
theorem module_handle_release_discipline (env : Env) (h1 : env.pyOk = true)
    (h2 : env.modOk = true) :
    ((mainProg env).events.filter Event.isClose).length = 1 ∧
    noLookupAfterClose (mainProg env).events = true ∧
    (¬(env.symErr "C_add_int" = none ∧ env.symErr "C_add_double" = none) →
      (mainProg env).events.all (fun e => !e.isInvoke) = true) := by
  rcases hi : env.symErr "C_add_int" with _ | e
  · rcases hd : env.symErr "C_add_double" with _ | e
    · rw [mainProg_success env h1 h2 hi hd]
      exact ⟨by simp [Event.isClose],
        by simp [noLookupAfterClose, Event.isLookup],
        fun h => absurd ⟨rfl, rfl⟩ h⟩
    · rw [mainProg_sym2Fail env e h1 h2 hi hd]
      exact ⟨by simp [Event.isClose],
        by simp [noLookupAfterClose, Event.isLookup],
        fun _ => by simp [Event.isInvoke]⟩
  · rw [mainProg_sym1Fail env e h1 h2 hi]
    exact ⟨by simp [Event.isClose],
      by simp [noLookupAfterClose, Event.isLookup],
      fun _ => by simp [Event.isInvoke]⟩

/-- Witness for C5 at the concrete environment in which resolution of
C_add_int fails: one release, no lookup after it, no invocation. -/
theorem module_handle_release_discipline_wit :
    ((mainProg envSymFail).events.filter Event.isClose).length = 1 ∧
    noLookupAfterClose (mainProg envSymFail).events = true ∧
    (mainProg envSymFail).events.all (fun e => !e.isInvoke) = true := by
  obtain ⟨a, b, c⟩ := module_handle_release_discipline envSymFail rfl rfl
  exact ⟨a, b, c (by decide)⟩

/-- Claim C6: the prerequisite runtime library is opened first with
immediate binding and global visibility, the target module is opened
with immediate binding (and not global visibility), and both loads must
have succeeded before any symbol resolution happens. -/
theorem load_order_and_flags (env : Env) :
    (mainProg env).events.head? =
      some (Event.evOpen "libpython3.12.so" true true env.pyOk) ∧
    (∀ bn g ok,
      Event.evOpen "./mymath.cpython-312-x86_64-linux-gnu.so" bn g ok ∈
          (mainProg env).events →
        bn = true ∧ g = false ∧ ok = env.modOk) ∧
    ((∃ e ∈ (mainProg env).events, e.isLookup = true) →
      env.pyOk = true ∧ env.modOk = true) := by
  rcases hp : env.pyOk with _ | _
  · rw [mainProg_pyFail env hp]
    refine ⟨rfl, ?_, ?_⟩
    · intro bn g ok hmem; simp at hmem
    · rintro ⟨e, hmem, he⟩
      simp at hmem
      rcases hmem with h | h | h <;> rw [h] at he <;> simp [Event.isLookup] at he
  · rcases hm : env.modOk with _ | _
    · rw [mainProg_modFail env hp hm]
      refine ⟨rfl, ?_, ?_⟩
      · intro bn g ok hmem
        simp at hmem
        exact ⟨hmem.1, hmem.2.1, hmem.2.2⟩
      · rintro ⟨e, hmem, he⟩
        simp at hmem
        rcases hmem with h | h | h | h <;> rw [h] at he <;> simp [Event.isLookup] at he
    · rcases hi : env.symErr "C_add_int" with _ | e
      · rcases hd : env.symErr "C_add_double" with _ | e
        · rw [mainProg_success env hp hm hi hd]
          refine ⟨rfl, ?_, fun _ => ⟨rfl, rfl⟩⟩
          intro bn g ok hmem
          simp at hmem
          exact ⟨hmem.1, hmem.2.1, hmem.2.2⟩
        · rw [mainProg_sym2Fail env e hp hm hi hd]
          refine ⟨rfl, ?_, fun _ => ⟨rfl, rfl⟩⟩
          intro bn g ok hmem
          simp at hmem
          exact ⟨hmem.1, hmem.2.1, hmem.2.2⟩
      · rw [mainProg_sym1Fail env e hp hm hi]
        refine ⟨rfl, ?_, fun _ => ⟨rfl, rfl⟩⟩
        intro bn g ok hmem
        simp at hmem
        exact ⟨hmem.1, hmem.2.1, hmem.2.2⟩

/-- Witness for C6 at the concrete all-success environment. -/
theorem load_order_and_flags_wit :
    (mainProg envA).events.head? =
      some (Event.evOpen "libpython3.12.so" true true true) ∧
    (true = true ∧ false = false ∧ true = true) ∧
    (true = true ∧ true = true) := by
  obtain ⟨a, b, c⟩ := load_order_and_flags envA
  exact ⟨a, b true false true (by decide),
    c ⟨Event.evLookup 2 "C_add_int" none, by decide, rfl⟩⟩

/-- Claim C7: the prerequisite runtime handle (handle 1) is acquired
once, first; it is never used for any symbol lookup (all lookups go
through the module handle 2); and it is never released on any execution
path. -/
theorem prerequisite_handle_discipline (env : Env) :
    ((mainProg env).events.filter
        (fun e => e.openPath == some "libpython3.12.so")).length = 1 ∧
    (mainProg env).events.head? =
      some (Event.evOpen "libpython3.12.so" true true env.pyOk) ∧
    (∀ h sym cb, Event.evLookup h sym cb ∈ (mainProg env).events → h = 2) ∧
    (∀ ok, Event.evClose 1 ok ∉ (mainProg env).events) := by
  rcases hp : env.pyOk with _ | _
  · rw [mainProg_pyFail env hp]
    refine ⟨by simp [Event.openPath], rfl, ?_, ?_⟩
    · intro h sym cb hmem; simp at hmem
    · intro ok; simp
  · rcases hm : env.modOk with _ | _
    · rw [mainProg_modFail env hp hm]
      refine ⟨by simp [Event.openPath], rfl, ?_, ?_⟩
      · intro h sym cb hmem; simp at hmem
      · intro ok; simp
    · rcases hi : env.symErr "C_add_int" with _ | e
      · rcases hd : env.symErr "C_add_double" with _ | e
        · rw [mainProg_success env hp hm hi hd]
          refine ⟨by simp [Event.openPath], rfl, ?_, ?_⟩
          · intro h sym cb hmem
            simp at hmem
            rcases hmem with ⟨hh, _, _⟩ | ⟨hh, _, _⟩ <;> exact hh
          · intro ok; simp
        · rw [mainProg_sym2Fail env e hp hm hi hd]
          refine ⟨by simp [Event.openPath], rfl, ?_, ?_⟩
          · intro h sym cb hmem
            simp at hmem
            rcases hmem with ⟨hh, _, _⟩ | ⟨hh, _, _⟩ <;> exact hh
          · intro ok; simp
      · rw [mainProg_sym1Fail env e hp hm hi]
        refine ⟨by simp [Event.openPath], rfl, ?_, ?_⟩
        · intro h sym cb hmem
          simp at hmem
          exact hmem.1
        · intro ok; simp

/-- Witness for C7 at the concrete all-success environment. -/
theorem prerequisite_handle_discipline_wit :
    ((mainProg envA).events.filter
        (fun e => e.openPath == some "libpython3.12.so")).length = 1 ∧
    (2 : Nat) = 2 := by
  obtain ⟨a, _, c, _⟩ := prerequisite_handle_discipline envA
  exact ⟨a, c 2 "C_add_int" none (by decide)⟩

/-- Counterexample to claim C1 as stated: at the concrete all-success
environment, the program performs no lookup of the symbol "C_dot" at
all (it resolves only C_add_int and C_add_double), so "the program
resolves the symbol C_dot from the opened module and, invoking it,
..." is false of the code. -/
theorem C_dot_never_resolved_cex :
    ((mainProg envA).events.filter
        (fun e => e.lookupSym == some "C_dot")).length = 0 := by decide

/-- Claim C1 (amended): the program resolves only C_add_int and
C_add_double — in particular it never resolves or invokes C_dot — while
the module's C_dot contract itself (modelled from the spec, since the
module implementation is not among the sources) does satisfy
C_dot([1,2,3],[4,5,6],3) = 32 and C_dot(x,y,0) = 0 for any buffers. -/
theorem C_dot_contract (env : Env) :
    (∀ h sym cb, Event.evLookup h sym cb ∈ (mainProg env).events →
      sym = "C_add_int" ∨ sym = "C_add_double") ∧
    C_dot [1, 2, 3] [4, 5, 6] 3 = 32 ∧
    (∀ x y, C_dot x y 0 = 0) := by
  refine ⟨?_, by norm_num [C_dot], fun x y => by simp [C_dot]⟩
  rcases hp : env.pyOk with _ | _
  · rw [mainProg_pyFail env hp]
    intro h sym cb hmem; simp at hmem
  · rcases hm : env.modOk with _ | _
    · rw [mainProg_modFail env hp hm]
      intro h sym cb hmem; simp at hmem
    · rcases hi : env.symErr "C_add_int" with _ | e
      · rcases hd : env.symErr "C_add_double" with _ | e
        · rw [mainProg_success env hp hm hi hd]
          intro h sym cb hmem
          simp at hmem
          rcases hmem with ⟨_, hs, _⟩ | ⟨_, hs, _⟩
          · exact Or.inl hs
          · exact Or.inr hs
        · rw [mainProg_sym2Fail env e hp hm hi hd]
          intro h sym cb hmem
          simp at hmem
          rcases hmem with ⟨_, hs, _⟩ | ⟨_, hs, _⟩
          · exact Or.inl hs
          · exact Or.inr hs
      · rw [mainProg_sym1Fail env e hp hm hi]
        intro h sym cb hmem
        simp at hmem
        exact Or.inl hmem.2.1

/-- Witness for the amended claim C1 at the concrete all-success
environment: the resolved symbol C_add_int is one of the two permitted
names, and the modelled C_dot evaluates to 32 on the spec's vectors. -/
theorem C_dot_contract_wit :
    ("C_add_int" = "C_add_int" ∨ "C_add_int" = "C_add_double") ∧
    C_dot [1, 2, 3] [4, 5, 6] 3 = 32 := by
  obtain ⟨a, b, _⟩ := C_dot_contract envA
  exact ⟨a 2 "C_add_int" none (by decide), b⟩
